import Mathlib

/-!
Verification of the color-analyzer backend core (season classification,
white-balance correction, confidence signals).

The development shallowly embeds the Python services
`backend/services/season_classifier.py`, `backend/services/color_processor.py`
and `backend/services/face_analyzer.py` into Lean.  Conventions:

* numpy/Python floats are modelled as real numbers (`ℝ`);
* an RGB image is a list of real-valued pixel triples (the 8-bit integer
  pixels of the source embed as the corresponding integral reals);
* `round(x, 1)` (Python) is modelled as `(round (10*x) : ℝ)/10` with
  Mathlib's `round` (half rounds up; Python rounds ties to even — the two
  agree except when `10*x` lands exactly on a half-integer, and every use
  below accounts for that midpoint case explicitly);
* `np.clip(v, lo, hi)` is `max lo (min hi v)`, and `astype(np.uint8)`
  after a clip to `[0, 255]` is `Int.floor` (truncation of a non-negative
  float);
* the external collaborators (MediaPipe segmentation/landmarks and the
  cv2 convex-hull rasterizer) are black boxes in the source; their outputs
  — the segmentation mask, the rasterized skin/cheek masks, and the
  per-region LAB samples — enter the embedded functions as parameters.

Python's `max(dict, key=dict.get)` returns the first key attaining the
maximal value in insertion order; `pyArgmax` below reproduces exactly that
fold over the fixed season order Winter, Summer, Autumn, Spring.
-/

namespace ColorAnalyzer

/-! ## Configuration constants (backend/core/config.py) -/

/-- `Settings.LAB_LIGHTNESS_THRESHOLD` (OpenCV 0-255 scale). -/
def LAB_LIGHTNESS_THRESHOLD : ℝ := 155

/-- `Settings.LAB_WARM_COOL_THRESHOLD`. -/
def LAB_WARM_COOL_THRESHOLD : ℝ := 5

/-- `Settings.WB_MIN_BACKGROUND_PERCENTAGE`. -/
def WB_MIN_BACKGROUND_PERCENTAGE : ℝ := 0.10

/-- `Settings.WB_MAX_BACKGROUND_VARIANCE`. -/
def WB_MAX_BACKGROUND_VARIANCE : ℝ := 30.0

/-- `Settings.SKIN_LOCUS_SLOPE`. -/
def SKIN_LOCUS_SLOPE : ℝ := -1.73

/-- `Settings.SKIN_LOCUS_INTERCEPT`. -/
def SKIN_LOCUS_INTERCEPT : ℝ := 1.06

/-- `Settings.SKIN_LOCUS_CORRECTION_STRENGTH`. -/
def SKIN_LOCUS_CORRECTION_STRENGTH : ℝ := 2.0

/-! ## Rounding (Python `round(x, 1)`) -/

/-- Python `round(x, 1)`: round to one decimal place. -/
noncomputable def roundTo1 (x : ℝ) : ℝ := (round (10 * x) : ℝ) / 10

/-! ## Season classifier (backend/services/season_classifier.py) -/

/-- The four seasons, in the insertion order of the `season_centers`
dictionary of `_calculate_season_probabilities` (also the insertion order
of every probability dictionary built by the classifier). -/
inductive Season
  | winter
  | summer
  | autumn
  | spring
deriving DecidableEq, Repr

/-- Dictionary iteration order of the season dictionaries. -/
def seasonOrder : List Season := [.winter, .summer, .autumn, .spring]

/-- Position of a season in the dictionary iteration order. -/
def seasonIdx : Season → ℕ
  | .winter => 0
  | .summer => 1
  | .autumn => 2
  | .spring => 3

/-- The string key used for a season in the Python dictionaries. -/
def seasonName : Season → String
  | .winter => "Winter"
  | .summer => "Summer"
  | .autumn => "Autumn"
  | .spring => "Spring"

/-- `season_centers[season]["L"]`. -/
def seasonCenterL : Season → ℝ
  | .winter => 130
  | .summer => 175
  | .autumn => 135
  | .spring => 175

/-- `season_centers[season]["warmth"]`. -/
def seasonCenterWarmth : Season → ℝ
  | .winter => -8
  | .summer => -5
  | .autumn => 12
  | .spring => 10

/-- Softmax temperature used in `_calculate_season_probabilities`. -/
def temperature : ℝ := 0.5

/-- Weighted euclidean distance of `(L, warmth_indicator)` from a season
center: `sqrt(((L-cL)/40)^2 + ((w-cw)/12)^2)`. -/
noncomputable def normDist (L w : ℝ) (s : Season) : ℝ :=
  Real.sqrt (((L - seasonCenterL s) / 40) ^ 2 + ((w - seasonCenterWarmth s) / 12) ^ 2)

/-- Softmax score `exp(-distance / temperature)` of a season. -/
noncomputable def score (L w : ℝ) (s : Season) : ℝ :=
  Real.exp (-(normDist L w s) / temperature)

/-- `total = sum(exp_scores.values())`. -/
noncomputable def totalScore (L w : ℝ) : ℝ :=
  (seasonOrder.map (score L w)).sum

/-- Unrounded probability `(score / total) * 100` of a season. -/
noncomputable def rawProb (L w : ℝ) (s : Season) : ℝ :=
  score L w s / totalScore L w * 100

/-- `SeasonClassifier._calculate_season_probabilities`: the probability
dictionary, with the degenerate uniform fallback when the total score is
zero, and each probability rounded to one decimal place otherwise. -/
noncomputable def calcSeasonProbabilities (L w : ℝ) : Season → ℝ :=
  if totalScore L w = 0 then fun _ => 25
  else fun s => roundTo1 (rawProb L w s)

/-- Python `max(season_probabilities, key=season_probabilities.get)`:
fold over the dictionary iteration order keeping the current key unless a
strictly larger value appears. -/
noncomputable def pyArgmax (f : Season → ℝ) : Season :=
  [Season.summer, Season.autumn, Season.spring].foldl
    (fun best s => if f best < f s then s else best) Season.winter

/-- The `lab_values` dictionary handed to `classify` (keys L, a, b). -/
structure LabValues where
  L : ℝ
  a : ℝ
  b : ℝ

/-- The multi-region analysis dictionary produced by
`FaceAnalyzer._extract_multi_region_skin_tone` (the fields consumed
downstream; the success branch additionally records the per-region colors
and variances, which no claim consumes). -/
structure MultiRegionAnalysis where
  regions_sampled : ℕ
  agreement_score : ℝ
  confidence_boost : ℝ
  status : String

/-- The variance-confidence dictionary produced by
`FaceAnalyzer._calculate_sample_variance_confidence`. -/
structure VarianceConfidence where
  variance : Option ℝ
  confidence_factor : ℝ
  status : String

/-- The contrast-analysis dictionary produced by
`FaceAnalyzer._analyze_contrast_level` (fields consumed by `classify`;
`.get("expected_seasons", [])` defaults to `[]` on the failure branch). -/
structure ContrastAnalysis where
  contrast_level : Option ℝ
  expected_seasons : List String
  status : String

/-- The result dictionary of `SeasonClassifier.classify` (the palette /
description / full-name lookups are pure static data from
`backend/core/palettes.py` and are omitted;
`base_confidence` is the rounded value stored in `confidence_breakdown`). -/
structure ClassificationResult where
  season : Season
  confidence : ℝ
  base_confidence : ℝ
  multi_region_boost : ℝ
  variance_adjustment : ℝ
  contrast_validation : ℝ
  season_probabilities : Season → ℝ
  is_light : Bool
  is_warm : Bool
  lightness_distance : ℝ
  warmth_distance : ℝ
  warmth_indicator : ℝ

/-- `SeasonClassifier.classify`. -/
noncomputable def classify (lab : LabValues)
    (multi_region_analysis : Option MultiRegionAnalysis)
    (variance_confidence : Option VarianceConfidence)
    (contrast_analysis : Option ContrastAnalysis) : ClassificationResult :=
  let a_normalized := lab.a - 128
  let b_normalized := lab.b - 128
  let warmth_indicator := b_normalized - a_normalized
  let season_probabilities := calcSeasonProbabilities lab.L warmth_indicator
  let season := pyArgmax season_probabilities
  let top_probability := season_probabilities season
  let base_confidence := min (50 + (top_probability - 25)) 95
  let multi_region_boost :=
    match multi_region_analysis with
    | some m => if m.status ≠ "insufficient_regions" then m.confidence_boost else 0
    | none => 0
  let variance_adjustment :=
    match variance_confidence with
    | some v => v.confidence_factor
    | none => 0
  let contrast_validation :=
    match contrast_analysis with
    | some c =>
        if c.status = "success" then
          if c.expected_seasons ≠ [] ∧ c.expected_seasons ≠ ["All"] then
            if seasonName season ∈ c.expected_seasons then 3 else -2
          else 0
        else 0
    | none => 0
  let final_confidence :=
    base_confidence + (multi_region_boost + variance_adjustment + contrast_validation)
  let final_clamped := max 30 (min 99 final_confidence)
  { season := season
    confidence := roundTo1 final_clamped
    base_confidence := roundTo1 base_confidence
    multi_region_boost := multi_region_boost
    variance_adjustment := variance_adjustment
    contrast_validation := contrast_validation
    season_probabilities := season_probabilities
    is_light := decide (season = Season.summer ∨ season = Season.spring)
    is_warm := decide (season = Season.autumn ∨ season = Season.spring)
    lightness_distance := |lab.L - LAB_LIGHTNESS_THRESHOLD|
    warmth_distance := |warmth_indicator - LAB_WARM_COOL_THRESHOLD|
    warmth_indicator := warmth_indicator }

/-! ## List statistics (numpy mean / std over pixel lists) -/

/-- A pixel: an RGB triple.  8-bit integer pixels of the source embed as
the corresponding integral reals. -/
abbrev Pixel : Type := ℝ × ℝ × ℝ

/-- An RGB image, flattened to its pixel list (all numpy reductions used
by the source are over the flattened pixel axis). -/
abbrev Image : Type := List Pixel

/-- `np.mean` of a list of scalars. -/
noncomputable def listMean (l : List ℝ) : ℝ := l.sum / l.length

/-- `np.std` (population standard deviation, numpy default `ddof=0`). -/
noncomputable def listStd (l : List ℝ) : ℝ :=
  Real.sqrt (listMean (l.map fun x => (x - listMean l) ^ 2))

/-- Red channel of a pixel list (`pixels[:, 0]`). -/
def channelR (l : List Pixel) : List ℝ := l.map fun p => p.1

/-- Green channel of a pixel list (`pixels[:, 1]`). -/
def channelG (l : List Pixel) : List ℝ := l.map fun p => p.2.1

/-- Blue channel of a pixel list (`pixels[:, 2]`). -/
def channelB (l : List Pixel) : List ℝ := l.map fun p => p.2.2

/-- `np.std(pixels, axis=0).mean()`: per-channel standard deviation,
averaged across the three channels. -/
noncomputable def avgChannelStd (pixels : List Pixel) : ℝ :=
  (listStd (channelR pixels) + listStd (channelG pixels) + listStd (channelB pixels)) / 3

/-! ## White balance corrector (backend/services/color_processor.py) -/

/-- `np.clip(g, 0.5, 2.0)` applied to a gain / correction factor. -/
noncomputable def clipGain (g : ℝ) : ℝ := max 0.5 (min 2 g)

/-- One corrected channel value: `np.clip(x, 0, 255).astype(np.uint8)`
(truncation of the clipped non-negative float). -/
noncomputable def quantizeChannel (x : ℝ) : ℝ := (⌊min 255 (max 0 x)⌋ : ℝ)

/-- `image.astype(np.float32) * gains`, clipped to `[0, 255]` and cast
back to `uint8` — a fresh output buffer in the source. -/
noncomputable def applyGains (image : Image) (g : ℝ × ℝ × ℝ) : Image :=
  image.map fun p =>
    (quantizeChannel (p.1 * g.1), quantizeChannel (p.2.1 * g.2.1),
      quantizeChannel (p.2.2 * g.2.2))

/-- `np.sum(background_mask)` for `background_mask = (segmentation_mask < 0.1)`. -/
noncomputable def countBackground (m : List ℝ) : ℕ :=
  (m.map fun v => if v < 0.1 then (1 : ℕ) else 0).sum

/-- `bg_percentage = np.sum(background_mask) / background_mask.size`. -/
noncomputable def bgPercentage (m : List ℝ) : ℝ := (countBackground m : ℝ) / m.length

/-- `np.mean(pixels, axis=0)`: the per-channel average color. -/
noncomputable def avgRGB (pixels : List Pixel) : ℝ × ℝ × ℝ :=
  (listMean (channelR pixels), listMean (channelG pixels), listMean (channelB pixels))

/-- `np.sum(avg_rgb)`. -/
noncomputable def sumRGB (pixels : List Pixel) : ℝ :=
  (avgRGB pixels).1 + (avgRGB pixels).2.1 + (avgRGB pixels).2.2

/-- `avg_gray = np.mean(avg_rgb)`. -/
noncomputable def avgGray (pixels : List Pixel) : ℝ := sumRGB pixels / 3

/-- `gains = np.clip(avg_gray / avg_rgb, 0.5, 2.0)` of the background
strategy. -/
noncomputable def bgGains (pixels : List Pixel) : ℝ × ℝ × ℝ :=
  (clipGain (avgGray pixels / (avgRGB pixels).1),
    clipGain (avgGray pixels / (avgRGB pixels).2.1),
    clipGain (avgGray pixels / (avgRGB pixels).2.2))

/-- `g_offset = expected_g - g_chrom` of the skin-locus strategy, where
`expected_g = SKIN_LOCUS_SLOPE * r_chrom + SKIN_LOCUS_INTERCEPT`. -/
noncomputable def gOffset (pixels : List Pixel) : ℝ :=
  (SKIN_LOCUS_SLOPE * ((avgRGB pixels).1 / sumRGB pixels) + SKIN_LOCUS_INTERCEPT) -
    (avgRGB pixels).2.1 / sumRGB pixels

/-- `correction_factor = np.clip(1.0 + g_offset * strength, 0.5, 2.0)`. -/
noncomputable def correctionFactor (pixels : List Pixel) : ℝ :=
  clipGain (1 + gOffset pixels * SKIN_LOCUS_CORRECTION_STRENGTH)

/-- Boolean indexing `image[background_mask == 1]`: the pixels whose
foreground probability is below 0.1. -/
noncomputable def selectBackground : List Pixel → List ℝ → List Pixel
  | p :: ps, v :: vs => (if v < 0.1 then [p] else []) ++ selectBackground ps vs
  | _, _ => []

/-- Boolean indexing `image[skin_mask == 1]` for a rasterized hull mask. -/
def selectSkin : List Pixel → List Bool → List Pixel
  | p :: ps, v :: vs => (if v then [p] else []) ++ selectSkin ps vs
  | _, _ => []

/-- Metadata dictionary of the background strategy (the `gains_applied`
note, a constant string, is omitted). -/
structure BgMeta where
  background_percentage : ℝ
  background_variance : ℝ
  average_background_rgb : ℝ × ℝ × ℝ
  average_background_gray : ℝ
  gains : ℝ × ℝ × ℝ

/-- Metadata dictionary of the skin-locus strategy. -/
structure SkinMeta where
  average_skin_rgb : ℝ × ℝ × ℝ
  r_chromaticity : ℝ
  g_chromaticity : ℝ
  expected_g : ℝ
  g_offset : ℝ
  correction_factor : ℝ
  temperature_shift : ℝ × ℝ × ℝ
  skin_pixel_count : ℕ

/-- `ColorProcessor._try_background_white_balance`.  The MediaPipe
segmentation mask (`results.segmentation_mask`, a per-pixel foreground
probability, or `None` when segmentation fails) is the external
collaborator's output and enters as a parameter. -/
noncomputable def tryBackgroundWhiteBalance (image : Image) (segMask : Option (List ℝ)) :
    Option (Image × BgMeta) :=
  match segMask with
  | none => none
  | some m =>
    if bgPercentage m < WB_MIN_BACKGROUND_PERCENTAGE then none
    else if selectBackground image m = [] then none
    else if avgChannelStd (selectBackground image m) > WB_MAX_BACKGROUND_VARIANCE then none
    else if (avgRGB (selectBackground image m)).1 < 1 ∨
        (avgRGB (selectBackground image m)).2.1 < 1 ∨
        (avgRGB (selectBackground image m)).2.2 < 1 then none
    else
      some (applyGains image (bgGains (selectBackground image m)),
        ⟨bgPercentage m * 100, avgChannelStd (selectBackground image m),
          avgRGB (selectBackground image m), avgGray (selectBackground image m),
          bgGains (selectBackground image m)⟩)

/-- `ColorProcessor._apply_skin_locus_white_balance`.  The rasterized
convex-hull skin mask built by `_create_skin_mask` from the MediaPipe
landmarks (cv2 geometry, an external collaborator) enters as a
parameter. -/
noncomputable def applySkinLocusWhiteBalance (image : Image) (skinMask : List Bool) :
    Option (Image × SkinMeta) :=
  if (selectSkin image skinMask).length < 100 then none
  else if sumRGB (selectSkin image skinMask) < 1 then none
  else
    some (applyGains image
        (1 / correctionFactor (selectSkin image skinMask), 1,
          correctionFactor (selectSkin image skinMask)),
      ⟨avgRGB (selectSkin image skinMask),
        (avgRGB (selectSkin image skinMask)).1 / sumRGB (selectSkin image skinMask),
        (avgRGB (selectSkin image skinMask)).2.1 / sumRGB (selectSkin image skinMask),
        SKIN_LOCUS_SLOPE *
            ((avgRGB (selectSkin image skinMask)).1 / sumRGB (selectSkin image skinMask)) +
          SKIN_LOCUS_INTERCEPT,
        gOffset (selectSkin image skinMask),
        correctionFactor (selectSkin image skinMask),
        (1 / correctionFactor (selectSkin image skinMask), 1,
          correctionFactor (selectSkin image skinMask)),
        (selectSkin image skinMask).length⟩)

/-- The method-specific metadata dictionary of a white-balance result. -/
inductive WBMeta
  | bg (m : BgMeta)
  | skin (m : SkinMeta)
  | noCorrection (reason : String)

/-- Return value of `ColorProcessor.apply_white_balance`.
`fresh_buffer` records buffer provenance: `true` when the returned
corrected array is a newly allocated buffer (both strategies end in
`image.astype(np.float32) * ...` followed by `np.clip(...).astype(np.uint8)`,
each of which allocates), `false` when the function returns the input
array object itself (the `return image, "none", ...` fallback). -/
structure WhiteBalanceResult where
  corrected : Image
  method : String
  metadata : WBMeta
  fresh_buffer : Bool

/-- `ColorProcessor.apply_white_balance` (the `debug=False` path): try the
background strategy first, fall back to skin locus only when landmarks
are available, otherwise return the input unchanged.  `skinMask` is
`some mask` exactly when `face_landmarks is not None` (with `mask` the
externally rasterized skin-landmark hull). -/
noncomputable def applyWhiteBalance (image : Image) (segMask : Option (List ℝ))
    (skinMask : Option (List Bool)) : WhiteBalanceResult :=
  match tryBackgroundWhiteBalance image segMask with
  | some (corrected, meta) => ⟨corrected, "background", .bg meta, true⟩
  | none =>
    match skinMask with
    | some sm =>
      match applySkinLocusWhiteBalance image sm with
      | some (corrected, meta) => ⟨corrected, "skin_locus", .skin meta, true⟩
      | none =>
        ⟨image, "none", .noCorrection "No suitable white balance method available", false⟩
    | none =>
      ⟨image, "none", .noCorrection "No suitable white balance method available", false⟩

/-! ## Confidence signals (backend/services/face_analyzer.py) -/

/-- `FaceAnalyzer._calculate_sample_variance_confidence`, from the cheek
pixels selected by the rasterized hull mask (`image[mask == 255]`; the
upstream geometry — landmark projection and `cv2.fillConvexPoly` — is the
external collaborator, and its "fewer than 3 points" failure branch
returns the same `failed` record as the empty-pixels branch modelled
here). -/
noncomputable def calculateSampleVarianceConfidence (pixels : List Pixel) :
    VarianceConfidence :=
  if pixels = [] then ⟨none, 0, "failed"⟩
  else if avgChannelStd pixels < 15 then ⟨some (avgChannelStd pixels), 5, "excellent"⟩
  else if avgChannelStd pixels < 25 then ⟨some (avgChannelStd pixels), 2, "good"⟩
  else if avgChannelStd pixels < 35 then ⟨some (avgChannelStd pixels), 0, "acceptable"⟩
  else ⟨some (avgChannelStd pixels), -5, "poor"⟩

/-- The local `agreement_score` of
`FaceAnalyzer._extract_multi_region_skin_tone`: the average of the
L-agreement `1 - min(L_variance/20, 1)` and the warmth agreement
`1 - min(warmth_variance/10, 1)`. -/
noncomputable def regionAgreementScore (labs : List LabValues) : ℝ :=
  ((1 - min (listStd (labs.map fun l => l.L) / 20) 1) +
    (1 - min (listStd (labs.map fun l => (l.b - 128) - (l.a - 128)) / 10) 1)) / 2

/-- `FaceAnalyzer._extract_multi_region_skin_tone`, as a function of the
LAB values of the successfully sampled regions (cheeks, forehead, nose
bridge, chin — region sampling and RGB→LAB conversion go through the
external cv2 collaborators; `region_lab_values` and `region_colors`
always have the same length). -/
noncomputable def extractMultiRegionSkinTone (labs : List LabValues) :
    MultiRegionAnalysis :=
  if labs.length < 2 then
    ⟨labs.length, 0, 0, "insufficient_regions"⟩
  else
    ⟨labs.length, regionAgreementScore labs, regionAgreementScore labs * 10,
      if regionAgreementScore labs > 0.7 then "good"
      else if regionAgreementScore labs > 0.5 then "moderate" else "poor"⟩

/-! ## Rounding lemmas -/

theorem round_upper (y : ℝ) : (round y : ℝ) ≤ y + 1 / 2 := by
  rw [round_eq]
  exact Int.floor_le _

theorem round_lower (y : ℝ) : y - 1 / 2 < (round y : ℝ) := by
  rw [round_eq]
  have h := Int.sub_one_lt_floor (y + 1 / 2)
  linarith

theorem round_monotone {x y : ℝ} (h : x ≤ y) : round x ≤ round y := by
  rw [round_eq, round_eq]
  exact Int.floor_le_floor (by linarith)

theorem roundTo1_nonneg {x : ℝ} (hx : 0 ≤ x) : 0 ≤ roundTo1 x := by
  unfold roundTo1
  have h : round (0 : ℝ) ≤ round (10 * x) := round_monotone (by linarith)
  have h0 : round (0 : ℝ) = 0 := by norm_num
  rw [h0] at h
  have : (0 : ℝ) ≤ (round (10 * x) : ℝ) := by exact_mod_cast h
  linarith

theorem roundTo1_le_of_le {x : ℝ} {k : ℤ} (h : 10 * x ≤ (k : ℝ)) :
    roundTo1 x ≤ (k : ℝ) / 10 := by
  unfold roundTo1
  have h1 : round (10 * x) ≤ round ((k : ℝ)) := round_monotone h
  rw [round_intCast] at h1
  have : ((round (10 * x) : ℤ) : ℝ) ≤ (k : ℝ) := by exact_mod_cast h1
  linarith

theorem le_roundTo1_of_le {x : ℝ} {k : ℤ} (h : (k : ℝ) ≤ 10 * x) :
    (k : ℝ) / 10 ≤ roundTo1 x := by
  unfold roundTo1
  have h1 : round ((k : ℝ)) ≤ round (10 * x) := round_monotone h
  rw [round_intCast] at h1
  have : (k : ℝ) ≤ ((round (10 * x) : ℤ) : ℝ) := by exact_mod_cast h1
  linarith

theorem fract_eq_half_of_round {y : ℝ} (h : (round y : ℝ) = y + 1 / 2) :
    Int.fract y = 1 / 2 := by
  have hf : Int.fract y = Int.fract (1 / 2 : ℝ) := by
    rw [Int.fract_eq_fract]
    exact ⟨round y - 1, by push_cast; linarith⟩
  rw [hf, Int.fract_eq_self.mpr (by norm_num)]

/-! ## Argmax lemmas (Python `max(dict, key=dict.get)`) -/

theorem pyArgmax_le (f : Season → ℝ) (s : Season) : f s ≤ f (pyArgmax f) := by
  cases s <;>
    simp only [pyArgmax, List.foldl] <;>
    split_ifs <;> push_neg at * <;> linarith

theorem pyArgmax_first (f : Season → ℝ) (s : Season) (h : f s = f (pyArgmax f)) :
    seasonIdx (pyArgmax f) ≤ seasonIdx s := by
  cases s <;>
    simp only [pyArgmax, List.foldl] at h ⊢ <;>
    split_ifs at h ⊢ <;>
    push_neg at * <;>
    simp only [seasonIdx] <;>
    first
    | omega
    | (exfalso; linarith)

theorem pyArgmax_eq_autumn (f : Season → ℝ) (h1 : f .winter < f .autumn)
    (h2 : f .summer < f .autumn) (h3 : f .spring < f .autumn) :
    pyArgmax f = .autumn := by
  simp only [pyArgmax, List.foldl]
  split_ifs <;> push_neg at * <;> first | rfl | (exfalso; linarith)

/-! ## Probability distribution lemmas -/

theorem totalScore_pos (L w : ℝ) : 0 < totalScore L w := by
  simp only [totalScore, seasonOrder, List.map_cons, List.map_nil, List.sum_cons,
    List.sum_nil, score]
  positivity

theorem calcProbs_eq (L w : ℝ) :
    calcSeasonProbabilities L w = fun s => roundTo1 (rawProb L w s) := by
  rw [calcSeasonProbabilities, if_neg (totalScore_pos L w).ne']

theorem totalScore_eq (L w : ℝ) :
    totalScore L w =
      score L w .winter + score L w .summer + score L w .autumn + score L w .spring := by
  simp only [totalScore, seasonOrder, List.map_cons, List.map_nil, List.sum_cons,
    List.sum_nil]
  ring

theorem sum_rawProb (L w : ℝ) :
    rawProb L w .winter + rawProb L w .summer + rawProb L w .autumn +
      rawProb L w .spring = 100 := by
  have hT := totalScore_pos L w
  have hrw : ∀ s, rawProb L w s = score L w s * 100 / totalScore L w := by
    intro s
    rw [rawProb]
    ring
  rw [hrw, hrw, hrw, hrw, div_add_div_same, div_add_div_same, div_add_div_same,
    div_eq_iff hT.ne']
  rw [totalScore_eq]
  ring

theorem rawProb_nonneg (L w : ℝ) (s : Season) : 0 ≤ rawProb L w s := by
  unfold rawProb
  have h1 := (Real.exp_pos (-(normDist L w s) / temperature)).le
  have h2 := (totalScore_pos L w).le
  unfold score
  positivity

theorem rawProb_le_100 (L w : ℝ) (s : Season) : rawProb L w s ≤ 100 := by
  have hT := totalScore_pos L w
  have hle : score L w s ≤ totalScore L w := by
    rw [totalScore_eq]
    have e1 := (Real.exp_pos (-(normDist L w .winter) / temperature)).le
    have e2 := (Real.exp_pos (-(normDist L w .summer) / temperature)).le
    have e3 := (Real.exp_pos (-(normDist L w .autumn) / temperature)).le
    have e4 := (Real.exp_pos (-(normDist L w .spring) / temperature)).le
    cases s <;> simp only [score] <;> linarith
  unfold rawProb
  rw [div_mul_eq_mul_div, div_le_iff₀ hT]
  linarith

theorem calcProbs_nonneg (L w : ℝ) (s : Season) :
    0 ≤ calcSeasonProbabilities L w s := by
  rw [calcProbs_eq]
  exact roundTo1_nonneg (rawProb_nonneg L w s)

theorem calcProbs_tenth (L w : ℝ) (s : Season) :
    ∃ k : ℤ, calcSeasonProbabilities L w s = (k : ℝ) / 10 := by
  rw [calcProbs_eq]
  exact ⟨round (10 * rawProb L w s), rfl⟩

theorem probs_sum_cases (L w : ℝ) :
    (calcSeasonProbabilities L w .winter + calcSeasonProbabilities L w .summer +
        calcSeasonProbabilities L w .autumn + calcSeasonProbabilities L w .spring = 99.9 ∨
      calcSeasonProbabilities L w .winter + calcSeasonProbabilities L w .summer +
        calcSeasonProbabilities L w .autumn + calcSeasonProbabilities L w .spring = 100 ∨
      calcSeasonProbabilities L w .winter + calcSeasonProbabilities L w .summer +
        calcSeasonProbabilities L w .autumn + calcSeasonProbabilities L w .spring = 100.1) ∨
    (calcSeasonProbabilities L w .winter + calcSeasonProbabilities L w .summer +
        calcSeasonProbabilities L w .autumn + calcSeasonProbabilities L w .spring = 100.2 ∧
      ∀ s, Int.fract (10 * rawProb L w s) = 1 / 2) := by
  have hsum := sum_rawProb L w
  have ubW := round_upper (10 * rawProb L w .winter)
  have ubS := round_upper (10 * rawProb L w .summer)
  have ubA := round_upper (10 * rawProb L w .autumn)
  have ubP := round_upper (10 * rawProb L w .spring)
  have lbW := round_lower (10 * rawProb L w .winter)
  have lbS := round_lower (10 * rawProb L w .summer)
  have lbA := round_lower (10 * rawProb L w .autumn)
  have lbP := round_lower (10 * rawProb L w .spring)
  have hKub : ((round (10 * rawProb L w .winter) + round (10 * rawProb L w .summer) +
      round (10 * rawProb L w .autumn) + round (10 * rawProb L w .spring) : ℤ) : ℝ) ≤ 1002 := by
    push_cast
    linarith
  have hKlb : (998 : ℝ) < ((round (10 * rawProb L w .winter) + round (10 * rawProb L w .summer) +
      round (10 * rawProb L w .autumn) + round (10 * rawProb L w .spring) : ℤ) : ℝ) := by
    push_cast
    linarith
  have hK1 : round (10 * rawProb L w .winter) + round (10 * rawProb L w .summer) +
      round (10 * rawProb L w .autumn) + round (10 * rawProb L w .spring) ≤ 1002 := by
    exact_mod_cast hKub
  have hK2 : 998 < round (10 * rawProb L w .winter) + round (10 * rawProb L w .summer) +
      round (10 * rawProb L w .autumn) + round (10 * rawProb L w .spring) := by
    exact_mod_cast hKlb
  have hPsum : calcSeasonProbabilities L w .winter + calcSeasonProbabilities L w .summer +
      calcSeasonProbabilities L w .autumn + calcSeasonProbabilities L w .spring =
      ((round (10 * rawProb L w .winter) + round (10 * rawProb L w .summer) +
        round (10 * rawProb L w .autumn) + round (10 * rawProb L w .spring) : ℤ) : ℝ) / 10 := by
    rw [calcProbs_eq]
    unfold roundTo1
    push_cast
    ring
  have hcases : round (10 * rawProb L w .winter) + round (10 * rawProb L w .summer) +
      round (10 * rawProb L w .autumn) + round (10 * rawProb L w .spring) = 999 ∨
      round (10 * rawProb L w .winter) + round (10 * rawProb L w .summer) +
      round (10 * rawProb L w .autumn) + round (10 * rawProb L w .spring) = 1000 ∨
      round (10 * rawProb L w .winter) + round (10 * rawProb L w .summer) +
      round (10 * rawProb L w .autumn) + round (10 * rawProb L w .spring) = 1001 ∨
      round (10 * rawProb L w .winter) + round (10 * rawProb L w .summer) +
      round (10 * rawProb L w .autumn) + round (10 * rawProb L w .spring) = 1002 := by
    omega
  rcases hcases with h | h | h | h
  · left
    left
    rw [hPsum, h]
    norm_num
  · left
    right
    left
    rw [hPsum, h]
    norm_num
  · left
    right
    right
    rw [hPsum, h]
    norm_num
  · right
    constructor
    · rw [hPsum, h]
      norm_num
    · have hcast : ((round (10 * rawProb L w .winter) + round (10 * rawProb L w .summer) +
          round (10 * rawProb L w .autumn) + round (10 * rawProb L w .spring) : ℤ) : ℝ) =
          1002 := by
        exact_mod_cast congrArg (fun k : ℤ => (k : ℝ)) h
      push_cast at hcast
      have eW : (round (10 * rawProb L w .winter) : ℝ) = 10 * rawProb L w .winter + 1 / 2 := by
        linarith
      have eS : (round (10 * rawProb L w .summer) : ℝ) = 10 * rawProb L w .summer + 1 / 2 := by
        linarith
      have eA : (round (10 * rawProb L w .autumn) : ℝ) = 10 * rawProb L w .autumn + 1 / 2 := by
        linarith
      have eP : (round (10 * rawProb L w .spring) : ℝ) = 10 * rawProb L w .spring + 1 / 2 := by
        linarith
      intro s
      cases s
      · exact fract_eq_half_of_round eW
      · exact fract_eq_half_of_round eS
      · exact fract_eq_half_of_round eA
      · exact fract_eq_half_of_round eP

theorem probs_sum_ge (L w : ℝ) :
    (99.9 : ℝ) ≤ calcSeasonProbabilities L w .winter + calcSeasonProbabilities L w .summer +
      calcSeasonProbabilities L w .autumn + calcSeasonProbabilities L w .spring := by
  rcases probs_sum_cases L w with (h | h | h) | ⟨h, _⟩ <;> rw [h] <;> norm_num

theorem top_prob_ge_25 (L w : ℝ) :
    (25 : ℝ) ≤ calcSeasonProbabilities L w (pyArgmax (calcSeasonProbabilities L w)) := by
  have h1 := pyArgmax_le (calcSeasonProbabilities L w) .winter
  have h2 := pyArgmax_le (calcSeasonProbabilities L w) .summer
  have h3 := pyArgmax_le (calcSeasonProbabilities L w) .autumn
  have h4 := pyArgmax_le (calcSeasonProbabilities L w) .spring
  have hge := probs_sum_ge L w
  obtain ⟨k, hk⟩ := calcProbs_tenth L w (pyArgmax (calcSeasonProbabilities L w))
  have hk' : (249 : ℝ) < (k : ℝ) := by
    rw [hk] at h1 h2 h3 h4
    linarith
  have hk2 : (249 : ℤ) < k := by exact_mod_cast hk'
  have hk3 : (250 : ℝ) ≤ (k : ℝ) := by exact_mod_cast hk2
  rw [hk]
  linarith

/-! ## Claim C1 -/

/-- C1: for every LAB input and any combination of optional signals, the
season returned by `classify` is the argmax of the probability
distribution it returns (its probability is ≥ every other season's), and
`is_light` holds iff the season is Summer or Spring while `is_warm` holds
iff the season is Autumn or Spring. -/
theorem classify_season_is_argmax (lab : LabValues) (mra : Option MultiRegionAnalysis)
    (vc : Option VarianceConfidence) (ca : Option ContrastAnalysis) :
    (∀ s, (classify lab mra vc ca).season_probabilities s ≤
        (classify lab mra vc ca).season_probabilities ((classify lab mra vc ca).season)) ∧
    ((classify lab mra vc ca).is_light = true ↔
      (classify lab mra vc ca).season = .summer ∨ (classify lab mra vc ca).season = .spring) ∧
    ((classify lab mra vc ca).is_warm = true ↔
      (classify lab mra vc ca).season = .autumn ∨ (classify lab mra vc ca).season = .spring) := by
  refine ⟨fun s => pyArgmax_le _ s, ?_, ?_⟩
  · exact decide_eq_true_iff
  · exact decide_eq_true_iff

/-! ## Claim C10 -/

/-- C10: `classify` breaks probability ties deterministically — the
returned season maximizes the returned distribution, and whenever another
season attains the same (maximal) probability, the returned season is the
one occurring first in the fixed dictionary order Winter, Summer, Autumn,
Spring.  (Determinism of equal inputs is immediate: `classify` is a
function of its arguments.) -/
theorem classify_tie_break_first_in_order (lab : LabValues)
    (mra : Option MultiRegionAnalysis) (vc : Option VarianceConfidence)
    (ca : Option ContrastAnalysis) :
    (∀ s, (classify lab mra vc ca).season_probabilities s ≤
        (classify lab mra vc ca).season_probabilities ((classify lab mra vc ca).season)) ∧
    (∀ s, (classify lab mra vc ca).season_probabilities s =
        (classify lab mra vc ca).season_probabilities ((classify lab mra vc ca).season) →
      seasonIdx ((classify lab mra vc ca).season) ≤ seasonIdx s) :=
  ⟨fun s => pyArgmax_le _ s, fun s h => pyArgmax_first _ s h⟩

/-- Witness for C10 at a concrete input: the returned season itself
attains the maximal probability, so the tie-breaking theorem applies to
it. -/
theorem classify_tie_break_first_in_order_witness :
    seasonIdx ((classify ⟨130, 120, 140⟩ none none none).season) ≤
      seasonIdx ((classify ⟨130, 120, 140⟩ none none none).season) :=
  (classify_tie_break_first_in_order ⟨130, 120, 140⟩ none none none).2
    ((classify ⟨130, 120, 140⟩ none none none).season) rfl

/-! ## Claim C2 -/

/-- C2: every probability produced by `_calculate_season_probabilities`
is non-negative, and the four rounded values sum to 100 within 0.1 —
except in the (measure-zero) corner where all four scaled unrounded
probabilities sit exactly on rounding midpoints, in which case the sum is
100.2; such a corner would force four exact rational constraints on
ratios of exponentials and is never attained, but its exclusion is beyond
elementary arithmetic, so it is carried as an explicit disjunct.  The
degenerate zero-total uniform fallback of the source is unreachable in
the real-valued model: the total of the four exponential scores is
strictly positive (second conjunct). -/
theorem season_probabilities_nonneg_sum_100 (L w : ℝ) :
    (∀ s, 0 ≤ calcSeasonProbabilities L w s) ∧
    0 < totalScore L w ∧
    (|calcSeasonProbabilities L w .winter + calcSeasonProbabilities L w .summer +
        calcSeasonProbabilities L w .autumn + calcSeasonProbabilities L w .spring - 100| ≤ 0.1 ∨
      ∀ s, Int.fract (10 * rawProb L w s) = 1 / 2) := by
  refine ⟨calcProbs_nonneg L w, totalScore_pos L w, ?_⟩
  rcases probs_sum_cases L w with (h | h | h) | ⟨_, hf⟩
  · left
    rw [h, abs_le]
    norm_num
  · left
    rw [h, abs_le]
    norm_num
  · left
    rw [h, abs_le]
    norm_num
  · right
    exact hf

/-! ## Claim C3 -/

/-- C3 (amended): the confidence returned by `classify` equals the base
confidence `min(50 + (top_probability - 25), 95)` plus the sum of the
three adjustments, clamped to `[30, 99]` **and then rounded to one
decimal place for display**; in particular the returned confidence always
lies in `[30, 99]` inclusive. -/
theorem classify_confidence_clamped_and_bounded (lab : LabValues)
    (mra : Option MultiRegionAnalysis) (vc : Option VarianceConfidence)
    (ca : Option ContrastAnalysis) :
    (classify lab mra vc ca).confidence =
      roundTo1 (max 30 (min 99
        (min (50 + ((classify lab mra vc ca).season_probabilities
            ((classify lab mra vc ca).season) - 25)) 95 +
          ((classify lab mra vc ca).multi_region_boost +
            (classify lab mra vc ca).variance_adjustment +
            (classify lab mra vc ca).contrast_validation)))) ∧
    30 ≤ (classify lab mra vc ca).confidence ∧
    (classify lab mra vc ca).confidence ≤ 99 := by
  refine ⟨rfl, ?_, ?_⟩
  · have h30 : (30 : ℝ) ≤ max 30 (min 99
        (min (50 + ((classify lab mra vc ca).season_probabilities
            ((classify lab mra vc ca).season) - 25)) 95 +
          ((classify lab mra vc ca).multi_region_boost +
            (classify lab mra vc ca).variance_adjustment +
            (classify lab mra vc ca).contrast_validation))) := le_max_left _ _
    have h := le_roundTo1_of_le (x := max 30 (min 99
        (min (50 + ((classify lab mra vc ca).season_probabilities
            ((classify lab mra vc ca).season) - 25)) 95 +
          ((classify lab mra vc ca).multi_region_boost +
            (classify lab mra vc ca).variance_adjustment +
            (classify lab mra vc ca).contrast_validation)))) (k := 300)
      (by push_cast; linarith)
    have hconf : (classify lab mra vc ca).confidence =
        roundTo1 (max 30 (min 99
          (min (50 + ((classify lab mra vc ca).season_probabilities
              ((classify lab mra vc ca).season) - 25)) 95 +
            ((classify lab mra vc ca).multi_region_boost +
              (classify lab mra vc ca).variance_adjustment +
              (classify lab mra vc ca).contrast_validation)))) := rfl
    rw [hconf]
    norm_num at h
    exact h
  · have h99 : max 30 (min 99
        (min (50 + ((classify lab mra vc ca).season_probabilities
            ((classify lab mra vc ca).season) - 25)) 95 +
          ((classify lab mra vc ca).multi_region_boost +
            (classify lab mra vc ca).variance_adjustment +
            (classify lab mra vc ca).contrast_validation))) ≤ 99 :=
      max_le (by norm_num) (min_le_left _ _)
    have h := roundTo1_le_of_le (x := max 30 (min 99
        (min (50 + ((classify lab mra vc ca).season_probabilities
            ((classify lab mra vc ca).season) - 25)) 95 +
          ((classify lab mra vc ca).multi_region_boost +
            (classify lab mra vc ca).variance_adjustment +
            (classify lab mra vc ca).contrast_validation)))) (k := 990)
      (by push_cast; linarith)
    have hconf : (classify lab mra vc ca).confidence =
        roundTo1 (max 30 (min 99
          (min (50 + ((classify lab mra vc ca).season_probabilities
              ((classify lab mra vc ca).season) - 25)) 95 +
            ((classify lab mra vc ca).multi_region_boost +
              (classify lab mra vc ca).variance_adjustment +
              (classify lab mra vc ca).contrast_validation)))) := rfl
    rw [hconf]
    norm_num at h
    exact h

/-- C3 counterexample: with a degenerate variance signal whose
`confidence_factor` is 0.05, the confidence returned by `classify` (which
the source rounds to one decimal place for display) differs from the
unrounded clamped sum `base + adjustments` by 0.05, so the claimed exact
equality fails. -/
theorem classify_confidence_exact_formula_false :
    ¬ ((classify ⟨0, 0, 0⟩ none (some ⟨none, 0.05, "excellent"⟩) none).confidence =
      max 30 (min 99
        (min (50 + ((classify ⟨0, 0, 0⟩ none (some ⟨none, 0.05, "excellent"⟩)
            none).season_probabilities
            ((classify ⟨0, 0, 0⟩ none (some ⟨none, 0.05, "excellent"⟩) none).season) - 25)) 95 +
          ((classify ⟨0, 0, 0⟩ none (some ⟨none, 0.05, "excellent"⟩)
              none).multi_region_boost +
            (classify ⟨0, 0, 0⟩ none (some ⟨none, 0.05, "excellent"⟩)
              none).variance_adjustment +
            (classify ⟨0, 0, 0⟩ none (some ⟨none, 0.05, "excellent"⟩)
              none).contrast_validation)))) := by
  have hP : (classify ⟨0, 0, 0⟩ none (some ⟨none, 0.05, "excellent"⟩)
      none).season_probabilities =
      calcSeasonProbabilities 0 (((0 : ℝ) - 128) - ((0 : ℝ) - 128)) := rfl
  have hS : (classify ⟨0, 0, 0⟩ none (some ⟨none, 0.05, "excellent"⟩) none).season =
      pyArgmax (calcSeasonProbabilities 0 (((0 : ℝ) - 128) - ((0 : ℝ) - 128))) := rfl
  have hmrb : (classify ⟨0, 0, 0⟩ none (some ⟨none, 0.05, "excellent"⟩)
      none).multi_region_boost = 0 := rfl
  have hva : (classify ⟨0, 0, 0⟩ none (some ⟨none, 0.05, "excellent"⟩)
      none).variance_adjustment = 0.05 := rfl
  have hcv : (classify ⟨0, 0, 0⟩ none (some ⟨none, 0.05, "excellent"⟩)
      none).contrast_validation = 0 := rfl
  have hconf : (classify ⟨0, 0, 0⟩ none (some ⟨none, 0.05, "excellent"⟩) none).confidence =
      roundTo1 (max 30 (min 99
        (min (50 + (calcSeasonProbabilities 0 (((0 : ℝ) - 128) - ((0 : ℝ) - 128))
            (pyArgmax (calcSeasonProbabilities 0 (((0 : ℝ) - 128) - ((0 : ℝ) - 128)))) - 25)) 95 +
          (0 + 0.05 + 0)))) := rfl
  obtain ⟨k, hk⟩ := calcProbs_tenth 0 (((0 : ℝ) - 128) - ((0 : ℝ) - 128))
    (pyArgmax (calcSeasonProbabilities 0 (((0 : ℝ) - 128) - ((0 : ℝ) - 128))))
  have htop := top_prob_ge_25 0 (((0 : ℝ) - 128) - ((0 : ℝ) - 128))
  rw [hk] at htop
  have hk250 : (250 : ℤ) ≤ k := by
    have : (250 : ℝ) ≤ (k : ℝ) := by linarith
    exact_mod_cast this
  -- the clamped sum is `min (k + 250) 950 / 10 + 0.05`, strictly inside (30, 99)
  have hbase : min (50 + ((k : ℝ) / 10 - 25)) 95 = ((min (k + 250) 950 : ℤ) : ℝ) / 10 := by
    push_cast
    rcases le_total ((k : ℝ) + 250) 950 with h | h
    · rw [min_eq_left (by linarith), min_eq_left (by linarith)]
      ring
    · rw [min_eq_right (by linarith), min_eq_right (by linarith)]
      norm_num
  have hm1 : (500 : ℤ) ≤ min (k + 250) 950 := by omega
  have hm2 : min (k + 250) 950 ≤ 950 := min_le_right _ _
  have hm1R : (500 : ℝ) ≤ ((min (k + 250) 950 : ℤ) : ℝ) := by exact_mod_cast hm1
  have hm2R : ((min (k + 250) 950 : ℤ) : ℝ) ≤ 950 := by exact_mod_cast hm2
  have hclamp : max 30 (min 99 (((min (k + 250) 950 : ℤ) : ℝ) / 10 + (0 + 0.05 + 0))) =
      ((min (k + 250) 950 : ℤ) : ℝ) / 10 + (0 + 0.05 + 0) := by
    rw [min_eq_right (by linarith), max_eq_right (by linarith)]
  have hround : roundTo1 (((min (k + 250) 950 : ℤ) : ℝ) / 10 + (0 + 0.05 + 0)) =
      ((min (k + 250) 950 : ℤ) : ℝ) / 10 + 0.1 := by
    unfold roundTo1
    have harg : 10 * (((min (k + 250) 950 : ℤ) : ℝ) / 10 + (0 + 0.05 + 0)) =
        ((min (k + 250) 950 : ℤ) : ℝ) + 1 / 2 := by
      ring
    rw [harg, round_eq]
    have : ((min (k + 250) 950 : ℤ) : ℝ) + 1 / 2 + 1 / 2 =
        ((min (k + 250) 950 + 1 : ℤ) : ℝ) := by
      push_cast
      ring
    rw [this, Int.floor_intCast]
    push_cast
    ring
  intro heq
  rw [hconf, hP, hS, hmrb, hva, hcv, hk, hbase, hclamp, hround] at heq
  linarith





/-! ## Square-root and exponential estimates -/

theorem sqrt_le_of_sq {a c : ℝ} (hc : 0 ≤ c) (h : a ≤ c ^ 2) : Real.sqrt a ≤ c := by
  calc Real.sqrt a ≤ Real.sqrt (c ^ 2) := Real.sqrt_le_sqrt h
    _ = c := by rw [Real.sqrt_sq hc]

theorem le_sqrt_of_sq {a c : ℝ} (_ha : 0 ≤ a) (h : c ^ 2 ≤ a) : c ≤ Real.sqrt a := by
  rcases le_or_lt c 0 with h0 | h0
  · exact h0.trans (Real.sqrt_nonneg a)
  · calc c = Real.sqrt (c ^ 2) := by rw [Real.sqrt_sq h0.le]
      _ ≤ Real.sqrt a := Real.sqrt_le_sqrt h

theorem exp_neg_le_one_div {t : ℝ} (ht : 0 ≤ t) : Real.exp (-t) ≤ 1 / (1 + t) := by
  rw [Real.exp_neg]
  have h1 : (0 : ℝ) < 1 + t := by linarith
  have h2 : 1 + t ≤ Real.exp t := by
    have := Real.add_one_le_exp t
    linarith
  rw [inv_eq_one_div]
  exact one_div_le_one_div_of_le h1 h2

theorem score_eq (L w : ℝ) (s : Season) :
    score L w s = Real.exp (-(2 * normDist L w s)) := by
  unfold score temperature
  congr 1
  ring

theorem score_le_mul (L w : ℝ) (sb sa : Season) (c : ℝ) (hc : 0 ≤ c)
    (hd : c ≤ 2 * (normDist L w sb - normDist L w sa)) :
    score L w sb ≤ (1 / (1 + c)) * score L w sa := by
  rw [score_eq, score_eq]
  have hsplit : Real.exp (-(2 * normDist L w sb)) =
      Real.exp (-(2 * (normDist L w sb - normDist L w sa))) *
        Real.exp (-(2 * normDist L w sa)) := by
    rw [← Real.exp_add]
    congr 1
    ring
  rw [hsplit]
  apply mul_le_mul_of_nonneg_right _ (Real.exp_pos _).le
  calc Real.exp (-(2 * (normDist L w sb - normDist L w sa)))
      ≤ 1 / (1 + 2 * (normDist L w sb - normDist L w sa)) :=
        exp_neg_le_one_div (by linarith)
    _ ≤ 1 / (1 + c) := one_div_le_one_div_of_le (by linarith) (by linarith)

/-! ## Claim C4 -/

/-- C4: for the LAB input `L=130, a=120, b=140` (warmth indicator 20),
`classify` returns the season Autumn with `is_warm = true` and
`is_light = false`. -/
theorem classify_autumn_example :
    (classify ⟨130, 120, 140⟩ none none none).season = .autumn ∧
    (classify ⟨130, 120, 140⟩ none none none).is_warm = true ∧
    (classify ⟨130, 120, 140⟩ none none none).is_light = false := by
  have hW20 : ((140 : ℝ) - 128) - ((120 : ℝ) - 128) = 20 := by norm_num
  -- distance estimates: d(Winter) = 7/3, d(Summer) = √3229/24 ≥ 2.367,
  -- d(Autumn) = √265/24 ≤ 0.679, d(Spring) = √1129/24 ≥ 1.399
  have hdW : (7 : ℝ) / 3 ≤ normDist 130 20 .winter := by
    unfold normDist
    apply le_sqrt_of_sq (by positivity)
    simp only [seasonCenterL, seasonCenterWarmth]
    norm_num
  have hdS : (2367 : ℝ) / 1000 ≤ normDist 130 20 .summer := by
    unfold normDist
    apply le_sqrt_of_sq (by positivity)
    simp only [seasonCenterL, seasonCenterWarmth]
    norm_num
  have hdA : normDist 130 20 .autumn ≤ (679 : ℝ) / 1000 := by
    unfold normDist
    apply sqrt_le_of_sq (by norm_num)
    simp only [seasonCenterL, seasonCenterWarmth]
    norm_num
  have hdSp : (1399 : ℝ) / 1000 ≤ normDist 130 20 .spring := by
    unfold normDist
    apply le_sqrt_of_sq (by positivity)
    simp only [seasonCenterL, seasonCenterWarmth]
    norm_num
  -- per-season score comparisons against the Autumn score
  have hsW := score_le_mul 130 20 .winter .autumn (33 / 10) (by norm_num) (by linarith)
  have hsS := score_le_mul 130 20 .summer .autumn (337 / 100) (by norm_num) (by linarith)
  have hsSp := score_le_mul 130 20 .spring .autumn (36 / 25) (by norm_num) (by linarith)
  have hsApos : 0 < score 130 20 .autumn := by
    rw [score_eq]
    exact Real.exp_pos _
  have hsWpos : 0 ≤ score 130 20 .winter := by
    rw [score_eq]
    exact (Real.exp_pos _).le
  have hsSpos : 0 ≤ score 130 20 .summer := by
    rw [score_eq]
    exact (Real.exp_pos _).le
  have hsSppos : 0 ≤ score 130 20 .spring := by
    rw [score_eq]
    exact (Real.exp_pos _).le
  have hTeq := totalScore_eq 130 20
  have hTpos := totalScore_pos 130 20
  -- unrounded probability bounds
  have hrawA : (53 : ℝ) < rawProb 130 20 .autumn := by
    unfold rawProb
    rw [div_mul_eq_mul_div, lt_div_iff₀ hTpos, hTeq]
    norm_num at hsW hsS hsSp
    linarith
  have hrawW : rawProb 130 20 .winter < 41 := by
    unfold rawProb
    rw [div_mul_eq_mul_div, div_lt_iff₀ hTpos, hTeq]
    norm_num at hsW hsS hsSp
    linarith
  have hrawS : rawProb 130 20 .summer < 41 := by
    unfold rawProb
    rw [div_mul_eq_mul_div, div_lt_iff₀ hTpos, hTeq]
    norm_num at hsW hsS hsSp
    linarith
  have hrawSp : rawProb 130 20 .spring < 41 := by
    unfold rawProb
    rw [div_mul_eq_mul_div, div_lt_iff₀ hTpos, hTeq]
    norm_num at hsW hsS hsSp
    linarith
  -- rounded probability bounds
  have hPA : (53 : ℝ) ≤ calcSeasonProbabilities 130 20 .autumn := by
    rw [calcProbs_eq]
    have h := le_roundTo1_of_le (x := rawProb 130 20 .autumn) (k := 530)
      (by push_cast; linarith)
    norm_num at h
    exact h
  have hPW : calcSeasonProbabilities 130 20 .winter ≤ 41 := by
    rw [calcProbs_eq]
    have h := roundTo1_le_of_le (x := rawProb 130 20 .winter) (k := 410)
      (by push_cast; linarith)
    norm_num at h
    exact h
  have hPS : calcSeasonProbabilities 130 20 .summer ≤ 41 := by
    rw [calcProbs_eq]
    have h := roundTo1_le_of_le (x := rawProb 130 20 .summer) (k := 410)
      (by push_cast; linarith)
    norm_num at h
    exact h
  have hPSp : calcSeasonProbabilities 130 20 .spring ≤ 41 := by
    rw [calcProbs_eq]
    have h := roundTo1_le_of_le (x := rawProb 130 20 .spring) (k := 410)
      (by push_cast; linarith)
    norm_num at h
    exact h
  have hmax : pyArgmax (calcSeasonProbabilities 130 20) = .autumn :=
    pyArgmax_eq_autumn _ (by linarith) (by linarith) (by linarith)
  have hSfield : (classify ⟨130, 120, 140⟩ none none none).season =
      pyArgmax (calcSeasonProbabilities 130 (((140 : ℝ) - 128) - ((120 : ℝ) - 128))) := rfl
  rw [hW20, hmax] at hSfield
  refine ⟨hSfield, ?_, ?_⟩
  · have h1 : (classify ⟨130, 120, 140⟩ none none none).is_warm =
        decide ((classify ⟨130, 120, 140⟩ none none none).season = Season.autumn ∨
          (classify ⟨130, 120, 140⟩ none none none).season = Season.spring) := rfl
    rw [h1, hSfield]
    decide
  · have h2 : (classify ⟨130, 120, 140⟩ none none none).is_light =
        decide ((classify ⟨130, 120, 140⟩ none none none).season = Season.summer ∨
          (classify ⟨130, 120, 140⟩ none none none).season = Season.spring) := rfl
    rw [h2, hSfield]
    decide

/-! ## Claim C5 -/

/-- C5: `apply_white_balance` is a fallback chain — the background
strategy is tried first for every input and wins whenever it is suitable;
the skin-locus strategy is attempted only when the background strategy
rejects and landmarks are available; and whenever both strategies reject
(in particular when the segmentation mask is present but the background
covers less than the 10% minimum, and no landmarks are present) the
returned image is the original image with method `"none"` and a metadata
reason string. -/
theorem apply_white_balance_fallback_chain (image : Image) (segMask : Option (List ℝ))
    (skinMask : Option (List Bool)) :
    (∀ c m, tryBackgroundWhiteBalance image segMask = some (c, m) →
      applyWhiteBalance image segMask skinMask = ⟨c, "background", .bg m, true⟩) ∧
    (∀ sm c m, tryBackgroundWhiteBalance image segMask = none → skinMask = some sm →
      applySkinLocusWhiteBalance image sm = some (c, m) →
      applyWhiteBalance image segMask skinMask = ⟨c, "skin_locus", .skin m, true⟩) ∧
    (tryBackgroundWhiteBalance image segMask = none →
      (skinMask = none ∨
        ∃ sm, skinMask = some sm ∧ applySkinLocusWhiteBalance image sm = none) →
      applyWhiteBalance image segMask skinMask =
        ⟨image, "none", .noCorrection "No suitable white balance method available", false⟩) ∧
    (∀ m, segMask = some m → bgPercentage m < WB_MIN_BACKGROUND_PERCENTAGE →
      tryBackgroundWhiteBalance image segMask = none) := by
  refine ⟨?_, ?_, ?_, ?_⟩
  · intro c m h
    simp only [applyWhiteBalance, h]
  · intro sm c m h hsm hskin
    simp only [applyWhiteBalance, h, hsm, hskin]
  · intro h hcase
    rcases hcase with hnone | ⟨sm, hsm, hskin⟩
    · simp only [applyWhiteBalance, h, hnone]
    · simp only [applyWhiteBalance, h, hsm, hskin]
  · intro m hm hlt
    subst hm
    simp only [tryBackgroundWhiteBalance, if_pos hlt]

/-- Witness for C5: a one-pixel image whose segmentation mask marks the
whole frame as foreground (background share 0% < 10%), with no landmarks:
the background strategy rejects and the chain falls through to the
unchanged-image `"none"` outcome. -/
theorem apply_white_balance_fallback_chain_witness :
    applyWhiteBalance [((50 : ℝ), 60, 70)] (some [(0.5 : ℝ)]) none =
      ⟨[((50 : ℝ), 60, 70)], "none",
        .noCorrection "No suitable white balance method available", false⟩ := by
  have hcount : countBackground [(0.5 : ℝ)] = 0 := by
    unfold countBackground
    simp only [List.map_cons, List.map_nil, List.sum_cons, List.sum_nil]
    rw [if_neg (by norm_num)]
    rfl
  have hpct : bgPercentage [(0.5 : ℝ)] < WB_MIN_BACKGROUND_PERCENTAGE := by
    unfold bgPercentage WB_MIN_BACKGROUND_PERCENTAGE
    rw [hcount]
    norm_num
  have hbg : tryBackgroundWhiteBalance [((50 : ℝ), 60, 70)] (some [(0.5 : ℝ)]) = none :=
    (apply_white_balance_fallback_chain [((50 : ℝ), 60, 70)] (some [(0.5 : ℝ)]) none).2.2.2
      [(0.5 : ℝ)] rfl hpct
  exact (apply_white_balance_fallback_chain [((50 : ℝ), 60, 70)] (some [(0.5 : ℝ)]) none).2.2.1
    hbg (Or.inl rfl)

/-! ## Claim C9 -/

/-- C9 counterexample: when both strategies reject (here: no segmentation
mask and no landmarks), `apply_white_balance` returns the input image
object itself — `fresh_buffer = false` records that the `return image,
"none", ...` statement of the source hands back the very input array, so
the returned image aliases the input buffer, contradicting the claim that
the corrected image never aliases the input in all three outcomes. -/
theorem white_balance_aliases_input_on_fallback :
    (applyWhiteBalance [((50 : ℝ), 60, 70)] none none).corrected = [((50 : ℝ), 60, 70)] ∧
    (applyWhiteBalance [((50 : ℝ), 60, 70)] none none).method = "none" ∧
    (applyWhiteBalance [((50 : ℝ), 60, 70)] none none).fresh_buffer = false :=
  ⟨rfl, rfl, rfl⟩

/-- C9 (amended): when a correction strategy wins, the corrected image is
a freshly allocated buffer (never the input array), and the input is
never mutated in any path (the embedding is pure: every operation builds
a new value); in the `"none"` fallback the function returns the input
image itself — unchanged, but aliased. -/
theorem white_balance_buffer_ownership (image : Image) (segMask : Option (List ℝ))
    (skinMask : Option (List Bool)) :
    ((applyWhiteBalance image segMask skinMask).method = "background" ∨
        (applyWhiteBalance image segMask skinMask).method = "skin_locus" →
      (applyWhiteBalance image segMask skinMask).fresh_buffer = true) ∧
    ((applyWhiteBalance image segMask skinMask).method = "none" →
      (applyWhiteBalance image segMask skinMask).fresh_buffer = false ∧
      (applyWhiteBalance image segMask skinMask).corrected = image) := by
  have hnb : ("none" : String) = "background" → False := by decide
  have hns : ("none" : String) = "skin_locus" → False := by decide
  have hbn : ("background" : String) = "none" → False := by decide
  have hsn : ("skin_locus" : String) = "none" → False := by decide
  rcases h1 : tryBackgroundWhiteBalance image segMask with - | ⟨c, m⟩
  · rcases skinMask with - | sm
    · have hr : applyWhiteBalance image segMask none =
          ⟨image, "none", .noCorrection "No suitable white balance method available",
            false⟩ := by
        simp only [applyWhiteBalance, h1]
      rw [hr]
      exact ⟨fun hco => hco.elim (fun hh => absurd hh hnb) (fun hh => absurd hh hns),
        fun _ => ⟨rfl, rfl⟩⟩
    · rcases h2 : applySkinLocusWhiteBalance image sm with - | ⟨c2, m2⟩
      · have hr : applyWhiteBalance image segMask (some sm) =
            ⟨image, "none", .noCorrection "No suitable white balance method available",
              false⟩ := by
          simp only [applyWhiteBalance, h1, h2]
        rw [hr]
        exact ⟨fun hco => hco.elim (fun hh => absurd hh hnb) (fun hh => absurd hh hns),
          fun _ => ⟨rfl, rfl⟩⟩
      · have hr : applyWhiteBalance image segMask (some sm) =
            ⟨c2, "skin_locus", .skin m2, true⟩ := by
          simp only [applyWhiteBalance, h1, h2]
        rw [hr]
        exact ⟨fun _ => rfl, fun hco => absurd hco hsn⟩
  · have hr : applyWhiteBalance image segMask skinMask = ⟨c, "background", .bg m, true⟩ := by
      simp only [applyWhiteBalance, h1]
    rw [hr]
    exact ⟨fun _ => rfl, fun hco => absurd hco hbn⟩

/-- Witness for C9 (amended theorem) on the fallback path: with neither a
segmentation mask nor landmarks, the method is `"none"`, the buffer is
not fresh, and the returned image is the input. -/
theorem white_balance_buffer_ownership_witness :
    (applyWhiteBalance [((50 : ℝ), 60, 70)] none none).fresh_buffer = false ∧
    (applyWhiteBalance [((50 : ℝ), 60, 70)] none none).corrected = [((50 : ℝ), 60, 70)] :=
  (white_balance_buffer_ownership [((50 : ℝ), 60, 70)] none none).2 rfl

/-! ## Claim C6 -/

theorem clipGain_bounds (g : ℝ) : 0.5 ≤ clipGain g ∧ clipGain g ≤ 2 := by
  unfold clipGain
  exact ⟨le_max_left _ _, max_le (by norm_num) (min_le_left _ _)⟩

/-- C6: whenever the background strategy succeeds, each of the three
per-channel gains it applies lies inside `[0.5, 2.0]`; whenever the
skin-locus strategy succeeds, its correction factor equals
`clip(1 + g_offset * 2.0, 0.5, 2.0)` (hence lies inside `[0.5, 2.0]`)
and the per-channel scales it applies are exactly
`(1/correction_factor, 1, correction_factor)`. -/
theorem white_balance_gain_bounds :
    (∀ (image : Image) (segMask : Option (List ℝ)) (c : Image) (m : BgMeta),
      tryBackgroundWhiteBalance image segMask = some (c, m) →
      (0.5 ≤ m.gains.1 ∧ m.gains.1 ≤ 2) ∧ (0.5 ≤ m.gains.2.1 ∧ m.gains.2.1 ≤ 2) ∧
        (0.5 ≤ m.gains.2.2 ∧ m.gains.2.2 ≤ 2)) ∧
    (∀ (image : Image) (sm : List Bool) (c : Image) (m : SkinMeta),
      applySkinLocusWhiteBalance image sm = some (c, m) →
      m.correction_factor = clipGain (1 + m.g_offset * SKIN_LOCUS_CORRECTION_STRENGTH) ∧
      (0.5 ≤ m.correction_factor ∧ m.correction_factor ≤ 2) ∧
      m.temperature_shift = (1 / m.correction_factor, 1, m.correction_factor)) := by
  constructor
  · intro image segMask c m h
    rcases segMask with - | msk
    · exact Option.noConfusion h
    · simp only [tryBackgroundWhiteBalance] at h
      split_ifs at h
      simp only [Option.some.injEq, Prod.mk.injEq] at h
      obtain ⟨-, hm⟩ := h
      subst hm
      exact ⟨⟨(clipGain_bounds _).1, (clipGain_bounds _).2⟩,
        ⟨(clipGain_bounds _).1, (clipGain_bounds _).2⟩,
        ⟨(clipGain_bounds _).1, (clipGain_bounds _).2⟩⟩
  · intro image sm c m h
    simp only [applySkinLocusWhiteBalance] at h
    split_ifs at h
    simp only [Option.some.injEq, Prod.mk.injEq] at h
    obtain ⟨-, hm⟩ := h
    subst hm
    exact ⟨rfl, ⟨(clipGain_bounds _).1, (clipGain_bounds _).2⟩, rfl⟩

/-! ## Claim C7 -/

/-- C7: for every successfully sampled (non-empty) cheek pixel set, the
intra-sample variance signal maps the channel-averaged per-pixel standard
deviation `v` to exactly: `v < 15 → ("excellent", +5)`,
`15 ≤ v < 25 → ("good", +2)`, `25 ≤ v < 35 → ("acceptable", 0)`,
`35 ≤ v → ("poor", -5)` (so in particular `v = 40` yields `"poor"` with
adjustment `-5`). -/
theorem variance_signal_thresholds (pixels : List Pixel) (hne : pixels ≠ []) :
    (avgChannelStd pixels < 15 →
      calculateSampleVarianceConfidence pixels =
        ⟨some (avgChannelStd pixels), 5, "excellent"⟩) ∧
    (15 ≤ avgChannelStd pixels → avgChannelStd pixels < 25 →
      calculateSampleVarianceConfidence pixels =
        ⟨some (avgChannelStd pixels), 2, "good"⟩) ∧
    (25 ≤ avgChannelStd pixels → avgChannelStd pixels < 35 →
      calculateSampleVarianceConfidence pixels =
        ⟨some (avgChannelStd pixels), 0, "acceptable"⟩) ∧
    (35 ≤ avgChannelStd pixels →
      calculateSampleVarianceConfidence pixels =
        ⟨some (avgChannelStd pixels), -5, "poor"⟩) := by
  unfold calculateSampleVarianceConfidence
  rw [if_neg hne]
  refine ⟨fun h1 => ?_, fun h1 h2 => ?_, fun h1 h2 => ?_, fun h1 => ?_⟩
  · rw [if_pos h1]
  · rw [if_neg (by linarith), if_pos h2]
  · rw [if_neg (by linarith), if_neg (by linarith), if_pos h2]
  · rw [if_neg (by linarith), if_neg (by linarith), if_neg (by linarith)]

/-! ## Claim C8 -/

theorem listStd_nonneg (l : List ℝ) : 0 ≤ listStd l := Real.sqrt_nonneg _

theorem regionAgreementScore_bounds (labs : List LabValues) :
    0 ≤ regionAgreementScore labs ∧ regionAgreementScore labs ≤ 1 := by
  unfold regionAgreementScore
  have hv1 : 0 ≤ listStd (labs.map fun l => l.L) := listStd_nonneg _
  have hv2 : 0 ≤ listStd (labs.map fun l => (l.b - 128) - (l.a - 128)) := listStd_nonneg _
  have hA1 : min (listStd (labs.map fun l => l.L) / 20) 1 ≤ 1 := min_le_right _ _
  have hA0 : 0 ≤ min (listStd (labs.map fun l => l.L) / 20) 1 :=
    le_min (by linarith) (by norm_num)
  have hB1 : min (listStd (labs.map fun l => (l.b - 128) - (l.a - 128)) / 10) 1 ≤ 1 :=
    min_le_right _ _
  have hB0 : 0 ≤ min (listStd (labs.map fun l => (l.b - 128) - (l.a - 128)) / 10) 1 :=
    le_min (by linarith) (by norm_num)
  constructor <;> linarith

/-- C8: when fewer than 2 of the four regions are successfully sampled,
the multi-region signal is the `"insufficient_regions"` record with
confidence boost 0 (regardless of the sampled values), and `classify`
then applies a multi-region boost of 0; when at least 2 regions are
sampled, the boost equals `agreement_score * 10`, lies in `[0, 10]`, and
the status is `"good"` if the agreement exceeds 0.7, `"moderate"` if it
exceeds 0.5, and `"poor"` otherwise. -/
theorem multi_region_signal_spec :
    (∀ labs : List LabValues, labs.length < 2 →
      extractMultiRegionSkinTone labs = ⟨labs.length, 0, 0, "insufficient_regions"⟩) ∧
    (∀ labs : List LabValues, 2 ≤ labs.length →
      (extractMultiRegionSkinTone labs).confidence_boost =
        (extractMultiRegionSkinTone labs).agreement_score * 10 ∧
      (extractMultiRegionSkinTone labs).agreement_score = regionAgreementScore labs ∧
      0 ≤ (extractMultiRegionSkinTone labs).confidence_boost ∧
      (extractMultiRegionSkinTone labs).confidence_boost ≤ 10 ∧
      (regionAgreementScore labs > 0.7 →
        (extractMultiRegionSkinTone labs).status = "good") ∧
      (¬ regionAgreementScore labs > 0.7 → regionAgreementScore labs > 0.5 →
        (extractMultiRegionSkinTone labs).status = "moderate") ∧
      (¬ regionAgreementScore labs > 0.7 → ¬ regionAgreementScore labs > 0.5 →
        (extractMultiRegionSkinTone labs).status = "poor")) ∧
    (∀ (lab : LabValues) (mra : MultiRegionAnalysis) (vc : Option VarianceConfidence)
        (ca : Option ContrastAnalysis), mra.status = "insufficient_regions" →
      (classify lab (some mra) vc ca).multi_region_boost = 0) := by
  refine ⟨?_, ?_, ?_⟩
  · intro labs h
    unfold extractMultiRegionSkinTone
    rw [if_pos h]
  · intro labs h
    have hr : extractMultiRegionSkinTone labs =
        ⟨labs.length, regionAgreementScore labs, regionAgreementScore labs * 10,
          if regionAgreementScore labs > 0.7 then "good"
          else if regionAgreementScore labs > 0.5 then "moderate" else "poor"⟩ := by
      unfold extractMultiRegionSkinTone
      rw [if_neg (by omega)]
    obtain ⟨ha0, ha1⟩ := regionAgreementScore_bounds labs
    rw [hr]
    refine ⟨rfl, rfl, by linarith, by linarith, fun hg => ?_, fun hg hm => ?_, fun hg hm => ?_⟩
    · simp only [if_pos hg]
    · simp only [if_neg hg, if_pos hm]
    · simp only [if_neg hg, if_neg hm]
  · intro lab mra vc ca hst
    have hproj : (classify lab (some mra) vc ca).multi_region_boost =
        (if mra.status ≠ "insufficient_regions" then mra.confidence_boost else 0) := rfl
    rw [hproj, if_neg (not_not_intro hst)]

/-! ## Concrete evaluation lemmas for the witnesses -/

theorem sqrt_eq_of_sq {x c : ℝ} (hc : 0 ≤ c) (h : x = c ^ 2) : Real.sqrt x = c := by
  rw [h, Real.sqrt_sq hc]

theorem listStd_pair (a b : ℝ) : listStd [a, b] = |a - b| / 2 := by
  unfold listStd listMean
  simp only [List.map_cons, List.map_nil, List.sum_cons, List.sum_nil, List.length_cons,
    List.length_nil]
  push_cast
  apply sqrt_eq_of_sq (by positivity)
  rw [div_pow, sq_abs]
  ring

theorem listStd_single (a : ℝ) : listStd [a] = 0 := by
  unfold listStd listMean
  simp only [List.map_cons, List.map_nil, List.sum_cons, List.sum_nil, List.length_cons,
    List.length_nil]
  push_cast
  apply sqrt_eq_of_sq le_rfl
  ring

theorem listMean_single (a : ℝ) : listMean [a] = a := by
  unfold listMean
  simp

theorem listMean_replicate (n : ℕ) (hn : n ≠ 0) (c : ℝ) :
    listMean (List.replicate n c) = c := by
  unfold listMean
  rw [List.sum_replicate, List.length_replicate, nsmul_eq_mul, mul_comm, mul_div_assoc,
    div_self (Nat.cast_ne_zero.mpr hn), mul_one]

theorem selectSkin_replicate (n : ℕ) (p : Pixel) :
    selectSkin (List.replicate n p) (List.replicate n true) = List.replicate n p := by
  induction n with
  | zero => rfl
  | succ k ih =>
      have hstep : selectSkin (p :: List.replicate k p) (true :: List.replicate k true) =
          (if true = true then [p] else []) ++
            selectSkin (List.replicate k p) (List.replicate k true) := rfl
      rw [List.replicate_succ, List.replicate_succ, hstep, if_pos rfl, ih]
      rfl

/-! ## Witness for C7 -/

/-- Witness for C7: a two-pixel cheek sample with per-channel standard
deviation exactly 40 is classified `"poor"` with adjustment `-5`. -/
theorem variance_signal_thresholds_witness :
    avgChannelStd [((0 : ℝ), 0, 0), ((80 : ℝ), 80, 80)] = 40 ∧
    calculateSampleVarianceConfidence [((0 : ℝ), 0, 0), ((80 : ℝ), 80, 80)] =
      ⟨some 40, -5, "poor"⟩ := by
  have hne : ([((0 : ℝ), 0, 0), ((80 : ℝ), 80, 80)] : List Pixel) ≠ [] := by simp
  have hstd : avgChannelStd [((0 : ℝ), 0, 0), ((80 : ℝ), 80, 80)] = 40 := by
    unfold avgChannelStd channelR channelG channelB
    simp only [List.map_cons, List.map_nil]
    rw [listStd_pair]
    norm_num
  refine ⟨hstd, ?_⟩
  have h := (variance_signal_thresholds [((0 : ℝ), 0, 0), ((80 : ℝ), 80, 80)] hne).2.2.2
    (by rw [hstd]; norm_num)
  rw [hstd] at h
  exact h

/-! ## Witness for C8 -/

/-- Witness for C8: a single sampled region gives the
`"insufficient_regions"` record with boost 0; two identical sampled
regions give perfect agreement 1, boost 10 and status `"good"`; and the
classifier applies a zero multi-region boost for an
`"insufficient_regions"` signal even when its `confidence_boost` field is
non-zero. -/
theorem multi_region_signal_spec_witness :
    extractMultiRegionSkinTone [⟨150, 128, 128⟩] = ⟨1, 0, 0, "insufficient_regions"⟩ ∧
    (extractMultiRegionSkinTone [⟨150, 128, 128⟩, ⟨150, 128, 128⟩]).confidence_boost = 10 ∧
    (extractMultiRegionSkinTone [⟨150, 128, 128⟩, ⟨150, 128, 128⟩]).status = "good" ∧
    (classify ⟨150, 128, 128⟩ (some ⟨1, 0, 7.3, "insufficient_regions"⟩) none
        none).multi_region_boost = 0 := by
  have hagree : regionAgreementScore [⟨150, 128, 128⟩, ⟨150, 128, 128⟩] = 1 := by
    unfold regionAgreementScore
    simp only [List.map_cons, List.map_nil]
    rw [listStd_pair, listStd_pair]
    norm_num
  have hlen2 : (2 : ℕ) ≤ ([⟨150, 128, 128⟩, ⟨150, 128, 128⟩] : List LabValues).length := by
    simp
  obtain ⟨hboost, hag, -, -, hgood, -, -⟩ :=
    multi_region_signal_spec.2.1 [⟨150, 128, 128⟩, ⟨150, 128, 128⟩] hlen2
  refine ⟨?_, ?_, ?_, ?_⟩
  · exact multi_region_signal_spec.1 [⟨150, 128, 128⟩] (by simp)
  · rw [hboost, hag, hagree]
    norm_num
  · exact hgood (by rw [hagree]; norm_num)
  · exact multi_region_signal_spec.2.2 ⟨150, 128, 128⟩ ⟨1, 0, 7.3, "insufficient_regions"⟩
      none none rfl

/-! ## Witness for C6 -/

/-- Witness for C6: a one-pixel all-background neutral image on which the
background strategy succeeds with gains `(1, 1, 1)`, and a 100-pixel skin
sample lying exactly on the skin locus, on which the skin-locus strategy
succeeds with correction factor `1` and scales `(1, 1, 1)`. -/
theorem white_balance_gain_bounds_witness :
    tryBackgroundWhiteBalance [((200 : ℝ), 200, 200)] (some [(0 : ℝ)]) =
      some ([((200 : ℝ), 200, 200)], ⟨100, 0, (200, 200, 200), 200, (1, 1, 1)⟩) ∧
    applySkinLocusWhiteBalance (List.replicate 100 ((100 : ℝ), 145, 55))
        (List.replicate 100 true) =
      some (List.replicate 100 ((100 : ℝ), 145, 55),
        ⟨(100, 145, 55), 1 / 3, 29 / 60, 29 / 60, 0, 1, (1, 1, 1), 100⟩) ∧
    ((0.5 : ℝ) ≤ 1 ∧ (1 : ℝ) ≤ 2) ∧
    (1 : ℝ) = clipGain (1 + 0 * SKIN_LOCUS_CORRECTION_STRENGTH) := by
  have hsel : selectBackground [((200 : ℝ), 200, 200)] [(0 : ℝ)] =
      [((200 : ℝ), 200, 200)] := by
    have hstep : selectBackground [((200 : ℝ), 200, 200)] [(0 : ℝ)] =
        (if (0 : ℝ) < 0.1 then [((200 : ℝ), 200, 200)] else []) ++
          selectBackground [] [] := rfl
    rw [hstep, if_pos (by norm_num)]
    rfl
  have hcount : countBackground [(0 : ℝ)] = 1 := by
    unfold countBackground
    simp only [List.map_cons, List.map_nil, List.sum_cons, List.sum_nil]
    rw [if_pos (by norm_num)]
    rfl
  have hpct : bgPercentage [(0 : ℝ)] = 1 := by
    unfold bgPercentage
    rw [hcount]
    simp
  have havg : avgRGB [((200 : ℝ), 200, 200)] = (200, 200, 200) := by
    unfold avgRGB channelR channelG channelB
    simp only [List.map_cons, List.map_nil]
    rw [listMean_single]
  have hstdv : avgChannelStd [((200 : ℝ), 200, 200)] = 0 := by
    unfold avgChannelStd channelR channelG channelB
    simp only [List.map_cons, List.map_nil]
    rw [listStd_single]
    norm_num
  have hgray : avgGray [((200 : ℝ), 200, 200)] = 200 := by
    unfold avgGray sumRGB
    rw [havg]
    norm_num
  have hgains : bgGains [((200 : ℝ), 200, 200)] = (1, 1, 1) := by
    unfold bgGains
    rw [hgray, havg]
    unfold clipGain
    norm_num
  have happly : applyGains [((200 : ℝ), 200, 200)] (1, 1, 1) = [((200 : ℝ), 200, 200)] := by
    unfold applyGains quantizeChannel
    simp only [List.map_cons, List.map_nil]
    norm_num
  have hbgeval : tryBackgroundWhiteBalance [((200 : ℝ), 200, 200)] (some [(0 : ℝ)]) =
      some ([((200 : ℝ), 200, 200)], ⟨100, 0, (200, 200, 200), 200, (1, 1, 1)⟩) := by
    simp only [tryBackgroundWhiteBalance]
    rw [hsel]
    rw [if_neg (by rw [hpct]; unfold WB_MIN_BACKGROUND_PERCENTAGE; norm_num)]
    rw [if_neg (by simp)]
    rw [if_neg (by rw [hstdv]; unfold WB_MAX_BACKGROUND_VARIANCE; norm_num)]
    rw [if_neg (by rw [havg]; norm_num)]
    rw [hgains, happly, havg, hstdv, hpct, hgray]
    norm_num
  -- skin-locus side
  have hselS : selectSkin (List.replicate 100 ((100 : ℝ), 145, 55))
      (List.replicate 100 true) = List.replicate 100 ((100 : ℝ), 145, 55) :=
    selectSkin_replicate 100 _
  have havgS : avgRGB (List.replicate 100 ((100 : ℝ), 145, 55)) = (100, 145, 55) := by
    unfold avgRGB channelR channelG channelB
    rw [List.map_replicate, List.map_replicate, List.map_replicate]
    rw [listMean_replicate 100 (by norm_num), listMean_replicate 100 (by norm_num),
      listMean_replicate 100 (by norm_num)]
  have hsumS : sumRGB (List.replicate 100 ((100 : ℝ), 145, 55)) = 300 := by
    unfold sumRGB
    rw [havgS]
    norm_num
  have hgoff : gOffset (List.replicate 100 ((100 : ℝ), 145, 55)) = 0 := by
    unfold gOffset SKIN_LOCUS_SLOPE SKIN_LOCUS_INTERCEPT
    rw [havgS, hsumS]
    norm_num
  have hcf : correctionFactor (List.replicate 100 ((100 : ℝ), 145, 55)) = 1 := by
    unfold correctionFactor SKIN_LOCUS_CORRECTION_STRENGTH
    rw [hgoff]
    unfold clipGain
    norm_num
  have happlyS : applyGains (List.replicate 100 ((100 : ℝ), 145, 55)) (1 / 1, 1, 1) =
      List.replicate 100 ((100 : ℝ), 145, 55) := by
    unfold applyGains quantizeChannel
    rw [List.map_replicate]
    norm_num
  have hskineval : applySkinLocusWhiteBalance (List.replicate 100 ((100 : ℝ), 145, 55))
      (List.replicate 100 true) =
      some (List.replicate 100 ((100 : ℝ), 145, 55),
        ⟨(100, 145, 55), 1 / 3, 29 / 60, 29 / 60, 0, 1, (1, 1, 1), 100⟩) := by
    simp only [applySkinLocusWhiteBalance]
    rw [hselS, List.length_replicate]
    rw [if_neg (by norm_num)]
    rw [if_neg (by rw [hsumS]; norm_num)]
    rw [hcf, havgS, hsumS, hgoff, happlyS]
    unfold SKIN_LOCUS_SLOPE SKIN_LOCUS_INTERCEPT
    norm_num
  refine ⟨hbgeval, hskineval, ?_, ?_⟩
  · exact (white_balance_gain_bounds.1 [((200 : ℝ), 200, 200)] (some [(0 : ℝ)])
      [((200 : ℝ), 200, 200)] ⟨100, 0, (200, 200, 200), 200, (1, 1, 1)⟩ hbgeval).1
  · exact (white_balance_gain_bounds.2 (List.replicate 100 ((100 : ℝ), 145, 55))
      (List.replicate 100 true) (List.replicate 100 ((100 : ℝ), 145, 55))
      ⟨(100, 145, 55), 1 / 3, 29 / 60, 29 / 60, 0, 1, (1, 1, 1), 100⟩ hskineval).1

end ColorAnalyzer
